/-
  Verification of `tensorflow/python/frozen_keras/utils/generic_utils.py`.

  Shallow embedding: Python dictionaries become association lists, the two
  module-level registries (`_GLOBAL_CUSTOM_OBJECTS`, `_GLOBAL_CUSTOM_NAMES`)
  become an explicit state record threaded through the functions, and Python
  exceptions become an `Except` error type distinguishing the exception class
  (ValueError, TypeError, AttributeError).
-/
import Mathlib

set_option autoImplicit false

namespace GenericUtils

/--
  A Python object that can live in the custom-object registry: a class or a
  function.  A class carries its `__name__` and whether it defines the
  `get_config` and `from_config` attributes; a function carries its
  `__name__`.
-/
inductive RegObj where
  | klass (name : String) (hasGetConfig : Bool) (hasFromConfig : Bool)
  | funcObj (name : String)
deriving DecidableEq, Repr

/-- `obj.__name__`. -/
def RegObj.pyName : RegObj → String
  | .klass n _ _ => n
  | .funcObj n => n

/-- `tf_inspect.isclass(obj)`. -/
def RegObj.isClass : RegObj → Bool
  | .klass _ _ _ => true
  | .funcObj _ => false

/-- `tf_inspect.isfunction(obj)`. -/
def RegObj.isFunction : RegObj → Bool
  | .klass _ _ _ => false
  | .funcObj _ => true

/-- `hasattr(obj, 'get_config')`. -/
def RegObj.hasGetConfigAttr : RegObj → Bool
  | .klass _ g _ => g
  | .funcObj _ => false

/-- `hasattr(obj, 'from_config')`. -/
def RegObj.hasFromConfigAttr : RegObj → Bool
  | .klass _ _ f => f
  | .funcObj _ => false

/-- Python exceptions raised by this module, by exception class. -/
inductive PyErr where
  | valueError (msg : String)
  | typeError (msg : String)
  | attributeError (msg : String)
  | overflowError (msg : String)
  | zeroDivisionError (msg : String)
deriving DecidableEq, Repr

/-- Dictionary lookup `d[k]` / `d.get(k)` on an association list. -/
def alistFind {α β : Type} [DecidableEq α] : List (α × β) → α → Option β
  | [], _ => none
  | (k, v) :: r, a => if k = a then some v else alistFind r a

/-- Dictionary assignment `d[k] = v`: overwrite in place, or append. -/
def alistSet {α β : Type} [DecidableEq α] : List (α × β) → α → β → List (α × β)
  | [], a, b => [(a, b)]
  | (k, v) :: r, a, b => if k = a then (k, b) :: r else (k, v) :: alistSet r a b

/-- `d.update(e)`: assign every entry of `e` into `d`, in order. -/
def alistUpdate {α β : Type} [DecidableEq α] (d e : List (α × β)) : List (α × β) :=
  e.foldl (fun acc kv => alistSet acc kv.1 kv.2) d

/--
  The module-level mutable state: `_GLOBAL_CUSTOM_OBJECTS` (qualified name to
  object) and `_GLOBAL_CUSTOM_NAMES` (object to qualified name).
-/
structure GState where
  customObjects : List (String × RegObj)
  customNames : List (RegObj × String)
deriving DecidableEq, Repr

/-- The state at module load: both registries empty. -/
def emptyG : GState := GState.mk [] []

/--
  Python truthiness of an optional dictionary argument (`None` and the empty
  dictionary are falsy).
-/
def truthy {α β : Type} : Option (List (α × β)) → Bool
  | none => false
  | some l => !l.isEmpty

/-- `get_registered_name`: the registered name of `obj`, else `obj.__name__`. -/
def get_registered_name (g : GState) (obj : RegObj) : String :=
  match alistFind g.customNames obj with
  | some n => n
  | none => obj.pyName

/--
  `get_registered_object`: look `name` up in `_GLOBAL_CUSTOM_OBJECTS`, then in
  `custom_objects` (if truthy), then in `module_objects` (if truthy).
-/
def get_registered_object (g : GState) (name : String)
    (custom_objects module_objects : Option (List (String × RegObj))) : Option RegObj :=
  match alistFind g.customObjects name with
  | some o => some o
  | none =>
    if truthy custom_objects && (alistFind (custom_objects.getD []) name).isSome then
      alistFind (custom_objects.getD []) name
    else if truthy module_objects && (alistFind (module_objects.getD []) name).isSome then
      alistFind (module_objects.getD []) name
    else
      none

/--
  The decorator returned by `register_keras_serializable(package, name)`
  applied to `arg`, acting on the registry state.  Returns the raised error or
  the returned object, together with the state after the call (the checks
  precede both assignments, so a raising call leaves the state untouched).
-/
def register_keras_serializable (package : String) (name : Option String) (arg : RegObj)
    (g : GState) : Except PyErr RegObj × GState :=
  let class_name := name.getD arg.pyName
  let registered_name := package ++ ">" ++ class_name
  if arg.isClass && !arg.hasGetConfigAttr then
    (.error (.valueError "Cannot register a class that does not have a get_config() method."), g)
  else if (alistFind g.customObjects registered_name).isSome then
    (.error (.valueError (registered_name ++ " has already been registered")), g)
  else if (alistFind g.customNames arg).isSome then
    (.error (.valueError "has already been registered"), g)
  else
    (.ok arg,
     GState.mk (alistSet g.customObjects registered_name arg)
       (alistSet g.customNames arg registered_name))

/--
  `CustomObjectScope.__enter__` for a scope built over the dictionaries
  `custom_objects`: returns the backup copy of `_GLOBAL_CUSTOM_OBJECTS` taken
  at entry, and the state after all the updates.
-/
def scope_enter (custom_objects : List (List (String × RegObj))) (g : GState) :
    List (String × RegObj) × GState :=
  (g.customObjects,
   GState.mk (custom_objects.foldl (fun acc d => alistUpdate acc d) g.customObjects)
     g.customNames)

/--
  `CustomObjectScope.__exit__`: clear `_GLOBAL_CUSTOM_OBJECTS` and re-fill it
  from the backup taken by `__enter__`.
-/
def scope_exit (backup : List (String × RegObj)) (g : GState) : GState :=
  GState.mk backup g.customNames

/--
  Round-half-even of a rational to the nearest integer: the rounding binary64
  arithmetic applies at every operation.
-/
def rhe (x : ℚ) : ℤ :=
  if x - ⌊x⌋ < 1 / 2 then ⌊x⌋
  else if 1 / 2 < x - ⌊x⌋ then ⌊x⌋ + 1
  else if ⌊x⌋ % 2 = 0 then ⌊x⌋ else ⌊x⌋ + 1

/--
  The binary64 value nearest to a nonnegative rational: significands carry
  53 bits, so the grid step around `x` is `2 ^ (Int.log 2 x - 52)`, ties to
  even.  This is the normal-range grid; subnormal quotients (possible only
  for divisors beyond 2^1022) round on a coarser grid in IEEE arithmetic,
  but both round every positive value to a positive value, which is all
  their ceiling depends on.
-/
def roundDouble (x : ℚ) : ℚ :=
  if x = 0 then 0
  else rhe (x / (2 : ℚ) ^ (Int.log 2 x - 52)) * (2 : ℚ) ^ (Int.log 2 x - 52)

/--
  `float(n)` on a nonnegative int: the nearest binary64 value, raising
  `OverflowError` when the rounded value reaches 2^1024.
-/
def toDouble (n : Nat) : Except PyErr ℚ :=
  if roundDouble (n : ℚ) < (2 : ℚ) ^ (1024 : ℤ) then .ok (roundDouble (n : ℚ))
  else .error (.overflowError "int too large to convert to float")

/--
  `int(np.ceil(size / float(batch_size)))`: `float(batch_size)` is evaluated
  first, the division converts `size` to binary64 as well (int divided by
  float), the correctly rounded quotient is ceiled (`np.ceil` is exact on
  binary64) and truncated to int.  Division by `0.0` raises
  `ZeroDivisionError`.
-/
def numBatches (size batch_size : Nat) : Except PyErr Nat :=
  match toDouble batch_size with
  | .error e => .error e
  | .ok b =>
    match toDouble size with
    | .error e => .error e
    | .ok a =>
      if b = 0 then .error (.zeroDivisionError "float division by zero")
      else .ok (Int.toNat ⌈roundDouble (a / b)⌉)

/-- `make_batches(size, batch_size)`. -/
def make_batches (size batch_size : Nat) : Except PyErr (List (Nat × Nat)) :=
  match numBatches size batch_size with
  | .error e => .error e
  | .ok num_batches =>
    .ok ((List.range num_batches).map
      (fun i => (i * batch_size, min size ((i + 1) * batch_size))))

/-
  Python values handled by the serializer and deserializer: `None`, booleans,
  integers, strings, functions (identified by `__name__`), instances of a
  class (the class together with the configuration that `get_config` returns),
  results of calling a registered function with keyword arguments, and
  dictionaries with string keys.
-/
mutual
inductive PyVal where
  | none
  | bool (b : Bool)
  | int (n : Int)
  | str (s : String)
  | func (name : String)
  | obj (cls : RegObj) (cfg : PyDict)
  | applied (f : String) (kwargs : PyDict)
  | dict (d : PyDict)
deriving DecidableEq, Repr
inductive PyDict where
  | nil
  | cons (key : String) (value : PyVal) (rest : PyDict)
deriving DecidableEq, Repr
end

/-- Dictionary lookup `d.get(k)`. -/
def PyDict.find? : PyDict → String → Option PyVal
  | .nil, _ => Option.none
  | .cons k v r, key => if k = key then some v else r.find? key

/-- Membership test `k in d`. -/
def PyDict.member (d : PyDict) (k : String) : Bool :=
  (d.find? k).isSome

/-- Dictionary assignment `d[k] = v`: overwrite in place, or append. -/
def PyDict.set : PyDict → String → PyVal → PyDict
  | .nil, k, v => .cons k v .nil
  | .cons k' v' r, k, v => if k' = k then .cons k' v r else .cons k' v' (r.set k v)

/-- `list(d.keys())`. -/
def PyDict.keys : PyDict → List String
  | .nil => []
  | .cons k _ r => k :: r.keys

/-- `isinstance(v, six.string_types)`. -/
def PyVal.isStr : PyVal → Bool
  | .str _ => true
  | _ => false

/-- `isinstance(v, dict)`. -/
def PyVal.isDict : PyVal → Bool
  | .dict _ => true
  | _ => false

theorem PyDict.sizeOf_find? : ∀ (d : PyDict) (k : String) (v : PyVal),
    d.find? k = some v → sizeOf v < sizeOf d
  | .cons k' v' r, k, v, h => by
    simp only [PyDict.find?] at h
    split at h
    · cases h
      simp
      omega
    · have := PyDict.sizeOf_find? r k v h
      simp
      omega

/-- `serialized_item['__passive_serialization__'] = True` on a dict value. -/
def markPassive : PyVal → PyVal
  | .dict d => .dict (d.set "__passive_serialization__" (.bool true))
  | v => v

/-
  `serialize_keras_object` and the loop that builds `serialization_config`
  from `instance.get_config()`.  Model choices: an instance is an `obj cls
  cfg` value whose `get_config()` returns `cfg` and never raises, so the
  `NotImplementedError` / `_SKIP_FAILED_SERIALIZATION` path is not taken;
  `tf_decorator.unwrap` on a non-decorated value returns the value itself.
  An instance whose class lacks `get_config`, a bare string, an integer, a
  boolean and a dictionary all lack both `get_config` and `__name__` and so
  reach the final `raise ValueError`.
-/
mutual
def serialize_keras_object (g : GState) : PyVal → Except PyErr PyVal
  | .none => .ok .none
  | .obj c cfg =>
    if c.hasGetConfigAttr then
      .ok (.dict (.cons "class_name" (.str (get_registered_name g c))
        (.cons "config" (.dict (serializeConfigEntries g cfg)) .nil)))
    else
      .error (.valueError "Cannot serialize")
  | .func f => .ok (.str (get_registered_name g (.funcObj f)))
  | _ => .error (.valueError "Cannot serialize")
termination_by v => sizeOf v
decreasing_by
  all_goals simp_wf
  all_goals (first | omega | (simp; omega) | simp)

def serializeConfigEntries (g : GState) : PyDict → PyDict
  | .nil => .nil
  | .cons k item r =>
    let v : PyVal :=
      if item.isStr then item
      else
        match serialize_keras_object g item with
        | .ok si => if si.isDict && !item.isDict then markPassive si else si
        | .error _ => item
    .cons k v (serializeConfigEntries g r)
termination_by d => sizeOf d
decreasing_by
  all_goals simp_wf
  all_goals (first | omega | (simp; omega) | simp)
end

/--
  The transformation `serializeConfigEntries` applies to a single value of
  `instance.get_config()`: strings are kept, any other value is serialized
  (with the passive-serialization marker added when a non-dict value
  serializes to a dict), and a value whose serialization raises `ValueError`
  is kept unchanged.
-/
def serializeItem (g : GState) (item : PyVal) : PyVal :=
  if item.isStr then item
  else
    match serialize_keras_object g item with
    | .ok si => if si.isDict && !item.isDict then markPassive si else si
    | .error _ => item

/--
  Model of the `from_config` classmethod convention:
  `cls.from_config(config)` builds an instance of `cls` whose configuration
  is `config`.
-/
def fromConfig (cls : RegObj) (cfg : PyDict) : PyVal := .obj cls cfg

/--
  The bare-string branch of `deserialize_keras_object`: look the name up in
  `custom_objects` (if truthy), then in `_GLOBAL_CUSTOM_OBJECTS`, then via
  `module_objects.get(name)` — which raises `AttributeError` when
  `module_objects` is `None`.
-/
def deserializeStringLookup (g : GState) (object_name : String)
    (module_objects custom_objects : Option (List (String × RegObj))) :
    Except PyErr RegObj :=
  match (if truthy custom_objects then alistFind (custom_objects.getD []) object_name
         else Option.none) with
  | some o => .ok o
  | none =>
    match alistFind g.customObjects object_name with
    | some o => .ok o
    | none =>
      match module_objects with
      | none => .error (.attributeError "NoneType object has no attribute get")
      | some m =>
        match alistFind m object_name with
        | some o => .ok o
        | none => .error (.valueError ("Unknown object:" ++ object_name))

/-
  `class_and_config_for_serialized_keras_object`, the item loop inside it,
  and `deserialize_keras_object`.  Model choices: dictionary keys are
  strings, so a non-string `class_name` is never found and the
  `'Unknown object: ' + class_name` message construction raises `TypeError`;
  a `config` entry that is not a dictionary makes `cls_config.items()` raise
  `AttributeError`; `cls.from_config(cls_config)` is modelled by `fromConfig`
  (both `from_config` call sites return it), calling a class without
  `from_config` builds an instance carrying the keyword arguments, and
  calling a registered function yields an `applied` value.
-/
mutual
def class_and_config_for_serialized_keras_object (g : GState) (config : PyVal)
    (module_objects custom_objects : Option (List (String × RegObj))) :
    Except PyErr (RegObj × PyDict) :=
  match config with
  | .dict d =>
    if !(d.member "class_name") || !(d.member "config") then
      .error (.valueError "Improper config format")
    else
      match d.find? "class_name" with
      | some (.str class_name) =>
        (match get_registered_object g class_name custom_objects module_objects with
         | some cls =>
           (match hcc : d.find? "config" with
            | some (.dict cls_config) =>
              (match deserializeConfigItems g cls_config module_objects custom_objects with
               | .ok newCfg => .ok (cls, newCfg)
               | .error e => .error e)
            | _ => .error (.attributeError "object has no attribute items"))
         | none => .error (.valueError ("Unknown object: " ++ class_name)))
      | some _ => .error (.typeError "can only concatenate str to str")
      | none => .error (.valueError "Improper config format")
  | _ => .error (.valueError "Improper config format")
termination_by (sizeOf config, 0)
decreasing_by
  apply Prod.Lex.left
  have h1 := PyDict.sizeOf_find? _ "config" _ hcc
  simp at h1 ⊢
  omega

def deserializeConfigItems (g : GState) (d : PyDict)
    (module_objects custom_objects : Option (List (String × RegObj))) :
    Except PyErr PyDict :=
  match d with
  | .nil => .ok .nil
  | .cons k item r =>
    let step : Except PyErr PyVal :=
      match item with
      | .dict sub =>
        if sub.member "__passive_serialization__" then
          deserialize_keras_object g (.dict sub) module_objects custom_objects
        else .ok item
      | .str s =>
        (match get_registered_object g s custom_objects Option.none with
         | some (.funcObj f) => .ok (.func f)
         | _ => .ok item)
      | _ => .ok item
    match step with
    | .ok v =>
      (match deserializeConfigItems g r module_objects custom_objects with
       | .ok r2 => .ok (.cons k v r2)
       | .error e => .error e)
    | .error e => .error e
termination_by (sizeOf d, 0)
decreasing_by
  all_goals apply Prod.Lex.left
  all_goals (first | omega | (simp; omega) | simp)

def deserialize_keras_object (g : GState) (identifier : PyVal)
    (module_objects custom_objects : Option (List (String × RegObj))) :
    Except PyErr PyVal :=
  match identifier with
  | .none => .ok .none
  | .dict d =>
    (match class_and_config_for_serialized_keras_object g (.dict d)
        module_objects custom_objects with
     | .error e => .error e
     | .ok (cls, cls_config) =>
       if cls.hasFromConfigAttr then
         .ok (fromConfig cls cls_config)
       else
         match cls with
         | .funcObj f => .ok (.applied f cls_config)
         | .klass n hg hf => .ok (.obj (.klass n hg hf) cls_config))
  | .str object_name =>
    (match deserializeStringLookup g object_name module_objects custom_objects with
     | .error e => .error e
     | .ok (.klass n hg hf) => .ok (.obj (.klass n hg hf) .nil)
     | .ok (.funcObj f) => .ok (.func f))
  | .func f => .ok (.func f)
  | _ => .error (.valueError "Could not interpret serialized object")
termination_by (sizeOf identifier, 1)
decreasing_by
  apply Prod.Lex.right
  first | omega | simp
end

theorem alistFind_alistSet_self {α β : Type} [DecidableEq α] (l : List (α × β)) (a : α) (b : β) :
    alistFind (alistSet l a b) a = some b := by
  induction l with
  | nil => simp [alistSet, alistFind]
  | cons kv r ih =>
    obtain ⟨k, v⟩ := kv
    by_cases h : k = a
    · simp [alistSet, alistFind, h]
    · simp [alistSet, alistFind, h, ih]

theorem alistFind_alistSet_ne {α β : Type} [DecidableEq α] (l : List (α × β)) (a k : α) (b : β)
    (h : k ≠ a) : alistFind (alistSet l a b) k = alistFind l k := by
  induction l with
  | nil => simp [alistSet, alistFind, Ne.symm h]
  | cons kv r ih =>
    obtain ⟨k', v'⟩ := kv
    by_cases h' : k' = a
    · subst h'
      simp [alistSet, alistFind, Ne.symm h]
    · simp [alistSet, alistFind, h', ih]

theorem alistSet_append_of_find_none {α β : Type} [DecidableEq α] (l : List (α × β)) (a : α)
    (b : β) (h : alistFind l a = none) : alistSet l a b = l ++ [(a, b)] := by
  induction l with
  | nil => simp [alistSet]
  | cons kv r ih =>
    obtain ⟨k, v⟩ := kv
    by_cases h' : k = a
    · simp [alistFind, h'] at h
    · simp [alistFind, h'] at h
      simp [alistSet, h', ih h]

theorem alistFind_isSome_alistSet {α β : Type} [DecidableEq α] (l : List (α × β)) (a k : α)
    (b : β) (h : (alistFind l k).isSome) : (alistFind (alistSet l a b) k).isSome := by
  by_cases hk : k = a
  · subst hk
    simp [alistFind_alistSet_self]
  · rw [alistFind_alistSet_ne l a k b hk]
    exact h

theorem alistFind_isSome_alistUpdate {α β : Type} [DecidableEq α] (d e : List (α × β)) (k : α)
    (h : (alistFind d k).isSome) : (alistFind (alistUpdate d e) k).isSome := by
  induction e generalizing d with
  | nil => exact h
  | cons kv r ih =>
    exact ih (alistSet d kv.1 kv.2) (alistFind_isSome_alistSet d kv.1 k kv.2 h)

theorem alistFind_isSome_foldl_update {α β : Type} [DecidableEq α]
    (ds : List (List (α × β))) (base : List (α × β)) (k : α)
    (h : (alistFind base k).isSome) :
    (alistFind (ds.foldl (fun acc d => alistUpdate acc d) base) k).isSome := by
  induction ds generalizing base with
  | nil => exact h
  | cons d r ih =>
    exact ih (alistUpdate base d) (alistFind_isSome_alistUpdate base d k h)

theorem rhe_sub_abs (x : ℚ) : |(rhe x : ℚ) - x| ≤ 1 / 2 := by
  have h0 : (⌊x⌋ : ℚ) ≤ x := Int.floor_le x
  have h1 : x < ⌊x⌋ + 1 := Int.lt_floor_add_one x
  rw [rhe]
  split
  · rename_i h2
    rw [abs_le]
    constructor <;> linarith
  · rename_i h2
    split
    · rename_i h3
      rw [abs_le]
      push_cast
      constructor <;> linarith
    · rename_i h3
      split <;> (rw [abs_le]; push_cast; constructor <;> linarith)

theorem rhe_intCast (n : ℤ) : rhe (n : ℚ) = n := by
  rw [rhe]
  norm_num

theorem int_log2_eq (x : ℚ) (k : ℤ) (h1 : (2 : ℚ) ^ k ≤ x) (h2 : x < (2 : ℚ) ^ (k + 1)) :
    Int.log 2 x = k := by
  have hx : 0 < x := lt_of_lt_of_le (by positivity) h1
  have hle : Int.log 2 x ≤ k := by
    by_contra h
    push_neg at h
    have hm : (2 : ℚ) ^ (k + 1) ≤ (2 : ℚ) ^ (Int.log 2 x) :=
      zpow_le_zpow_right₀ (by norm_num) (by omega)
    have h3 := Int.zpow_log_le_self (b := 2) (by norm_num) hx
    push_cast at h3
    linarith
  have hge : k ≤ Int.log 2 x := by
    by_contra h
    push_neg at h
    have hm : (2 : ℚ) ^ (Int.log 2 x + 1) ≤ (2 : ℚ) ^ k :=
      zpow_le_zpow_right₀ (by norm_num) (by omega)
    have h4 := Int.lt_zpow_succ_log_self (b := 2) (by norm_num) x
    push_cast at h4
    linarith
  omega

theorem int_grid (a e : ℤ) (he : e ≤ 52) :
    (a : ℚ) = ((a * 2 ^ (52 - e).toNat : ℤ) : ℚ) * (2 : ℚ) ^ (e - 52) := by
  have h2 : (((52 - e).toNat : ℤ) + (e - 52)) = 0 := by omega
  push_cast
  rw [← zpow_natCast (2 : ℚ) (52 - e).toNat]
  rw [mul_assoc, ← zpow_add₀ (two_ne_zero) (((52 - e).toNat : ℤ)) (e - 52), h2]
  norm_num

theorem roundDouble_grid_self (x : ℚ) (hx : 0 < x) (m : ℤ)
    (hm : x = (m : ℚ) * (2 : ℚ) ^ (Int.log 2 x - 52)) : roundDouble x = x := by
  rw [roundDouble, if_neg (ne_of_gt hx)]
  set t : ℚ := (2 : ℚ) ^ (Int.log 2 x - 52) with htdef
  have ht0 : (0 : ℚ) < t := by
    rw [htdef]
    positivity
  clear_value t
  have hdiv : x / t = (m : ℚ) := by
    rw [hm]
    field_simp
  rw [hdiv, rhe_intCast]
  exact hm.symm

theorem log2_le_52 (x : ℚ) (hx : 0 < x) (h : x < (2 : ℚ) ^ (53 : ℕ)) :
    Int.log 2 x ≤ 52 := by
  by_contra hc
  push_neg at hc
  have hm : (2 : ℚ) ^ (53 : ℤ) ≤ (2 : ℚ) ^ (Int.log 2 x) :=
    zpow_le_zpow_right₀ (by norm_num) (by omega)
  have h3 := Int.zpow_log_le_self (b := 2) (by norm_num) hx
  push_cast at h3
  have hpow : (2 : ℚ) ^ (53 : ℤ) = (2 : ℚ) ^ (53 : ℕ) := by
    rw [← zpow_natCast]
    norm_num
  linarith

theorem roundDouble_int_le (k : ℤ) (h0 : 0 < k) (hk : (k : ℚ) ≤ 2 ^ (53 : ℕ)) :
    roundDouble (k : ℚ) = k := by
  have hx : (0 : ℚ) < (k : ℚ) := by exact_mod_cast h0
  rcases lt_or_eq_of_le hk with hlt | heq
  · exact roundDouble_grid_self (k : ℚ) hx _ (int_grid k _ (log2_le_52 _ hx hlt))
  · have hlog : Int.log 2 (k : ℚ) = 53 := by
      apply int_log2_eq
      · rw [heq]
        rw [← zpow_natCast (2 : ℚ) 53]
        norm_num
      · rw [heq]
        rw [show ((53 : ℤ) + 1) = (54 : ℤ) by norm_num, ← zpow_natCast (2 : ℚ) 53,
          show ((54 : ℤ)) = ((54 : ℕ) : ℤ) by norm_num, zpow_natCast]
        norm_num
    apply roundDouble_grid_self (k : ℚ) hx (2 ^ 52)
    rw [hlog, heq]
    norm_num

theorem roundDouble_nat (n : Nat) (hn : n ≤ 2 ^ 53) : roundDouble (n : ℚ) = n := by
  rcases Nat.eq_zero_or_pos n with rfl | h0
  · rw [roundDouble]
    norm_num
  · have h := roundDouble_int_le (n : ℤ) (by exact_mod_cast h0) (by exact_mod_cast hn)
    push_cast at h ⊢
    exact h

theorem roundDouble_sub_abs (x : ℚ) (hx : 0 < x) :
    |roundDouble x - x| ≤ (2 : ℚ) ^ (Int.log 2 x - 52) / 2 := by
  rw [roundDouble, if_neg (ne_of_gt hx)]
  have hs0 : (0 : ℚ) < (2 : ℚ) ^ (Int.log 2 x - 52) := by positivity
  have hsplit : (rhe (x / (2 : ℚ) ^ (Int.log 2 x - 52)) : ℚ) * (2 : ℚ) ^ (Int.log 2 x - 52) - x
      = ((rhe (x / (2 : ℚ) ^ (Int.log 2 x - 52)) : ℚ) - x / (2 : ℚ) ^ (Int.log 2 x - 52))
        * (2 : ℚ) ^ (Int.log 2 x - 52) := by
    field_simp
  rw [hsplit, abs_mul, abs_of_pos hs0]
  have h := rhe_sub_abs (x / (2 : ℚ) ^ (Int.log 2 x - 52))
  nlinarith [abs_nonneg ((rhe (x / (2 : ℚ) ^ (Int.log 2 x - 52)) : ℚ)
    - x / (2 : ℚ) ^ (Int.log 2 x - 52))]

theorem ceil_roundDouble_div (size bs : Nat) (h1 : 1 ≤ bs) (hpos : 0 < size)
    (hs : size < 2 ^ 53) (hb : bs < 2 ^ 53) :
    ⌈roundDouble ((size : ℚ) / (bs : ℚ))⌉ = (((size + bs - 1) / bs : Nat) : ℤ) := by
  have hb0 : (0 : ℚ) < (bs : ℚ) := by
    have : 0 < bs := by omega
    exact_mod_cast this
  have hq0 : (0 : ℚ) < (size : ℚ) / (bs : ℚ) := by positivity
  by_cases hdvd : size % bs = 0
  · -- an exact quotient is an integer below 2^53, hence on the grid
    have hdsz : size / bs * bs = size := Nat.div_mul_cancel (Nat.dvd_of_mod_eq_zero hdvd)
    have hble : bs ≤ size := Nat.le_of_dvd hpos (Nat.dvd_of_mod_eq_zero hdvd)
    have hqk : (size : ℚ) / (bs : ℚ) = ((size / bs : ℕ) : ℚ) := by
      rw [div_eq_iff (ne_of_gt hb0)]
      exact_mod_cast hdsz.symm
    rw [hqk, roundDouble_nat (size / bs) (by have := Nat.div_le_self size bs; omega),
      Int.ceil_natCast]
    have hdsz2 : bs * (size / bs) = size := by
      rw [Nat.mul_comm]
      exact hdsz
    have hnat : (size + bs - 1) / bs = size / bs := by
      have hs1 : size + bs - 1 = bs * (size / bs) + (bs - 1) := by omega
      rw [hs1, Nat.mul_add_div (by omega)]
      have h3 : (bs - 1) / bs = 0 := Nat.div_eq_of_lt (by omega)
      omega
    rw [hnat]
  · -- the quotient lies strictly between k and k + 1
    have hr1 : 1 ≤ size % bs := Nat.pos_of_ne_zero hdvd
    have hrb : size % bs < bs := Nat.mod_lt _ (by omega)
    have hsz : bs * (size / bs) + size % bs = size := Nat.div_add_mod size bs
    have hRHS : (size + bs - 1) / bs = size / bs + 1 := by
      have hs1 : size + bs - 1 = bs * (size / bs + 1) + (size % bs - 1) := by
        have h2 : bs * (size / bs + 1) = bs * (size / bs) + bs := by ring
        omega
      rw [hs1, Nat.mul_add_div (by omega)]
      have h3 : (size % bs - 1) / bs = 0 := Nat.div_eq_of_lt (by omega)
      omega
    rw [hRHS]
    set k : ℚ := ((size / bs : ℕ) : ℚ) with hkdef
    set q : ℚ := (size : ℚ) / (bs : ℚ) with hqdef
    have hsz3 : size / bs * bs + size % bs = size := by
      rw [Nat.mul_comm]
      exact hsz
    have hq_split : q = k + ((size % bs : ℕ) : ℚ) / (bs : ℚ) := by
      rw [hqdef, hkdef]
      field_simp
      exact_mod_cast hsz3.symm
    have hq_ub : q < k + 1 := by
      rw [hq_split]
      have hfr : ((size % bs : ℕ) : ℚ) / (bs : ℚ) < 1 := by
        rw [div_lt_one hb0]
        exact_mod_cast hrb
      linarith
    have hq_lb : (1 : ℚ) / (bs : ℚ) ≤ q - k := by
      rw [hq_split]
      have hr1Q : (1 : ℚ) ≤ ((size % bs : ℕ) : ℚ) := by exact_mod_cast hr1
      have := (div_le_div_right hb0).mpr hr1Q
      linarith
    have hqsize : q ≤ (size : ℚ) := by
      rw [hqdef]
      have h1b : (1 : ℚ) ≤ (bs : ℚ) := by exact_mod_cast h1
      calc (size : ℚ) / (bs : ℚ) ≤ (size : ℚ) / 1 :=
            div_le_div_of_nonneg_left (by positivity) (by norm_num) h1b
        _ = (size : ℚ) := by norm_num
    have hq53 : q < (2 : ℚ) ^ (53 : ℕ) := by
      have hsQ : (size : ℚ) < (2 : ℚ) ^ (53 : ℕ) := by exact_mod_cast hs
      linarith
    have he52 : Int.log 2 q ≤ 52 := log2_le_52 q hq0 hq53
    set e : ℤ := Int.log 2 q with hedef
    set s : ℚ := (2 : ℚ) ^ (e - 52) with hsdef
    have hs0 : (0 : ℚ) < s := by
      rw [hsdef]
      positivity
    clear_value k q e s
    -- the grid step is below 2 / bs
    have hsle : s ≤ q * (2 : ℚ) ^ (-52 : ℤ) := by
      rw [hsdef]
      have h2e : (2 : ℚ) ^ (e - 52) = (2 : ℚ) ^ e * (2 : ℚ) ^ (-52 : ℤ) := by
        rw [← zpow_add₀ (two_ne_zero : (2 : ℚ) ≠ 0)]
        congr 1
      rw [h2e]
      have hlog := Int.zpow_log_le_self (b := 2) (by norm_num) hq0
      push_cast at hlog
      have hpos52 : (0 : ℚ) < (2 : ℚ) ^ (-52 : ℤ) := by positivity
      rw [hedef]
      exact mul_le_mul_of_nonneg_right hlog (le_of_lt hpos52)
    have hhalf : (2 : ℚ) ^ (-52 : ℤ) / 2 = (2 : ℚ) ^ (-53 : ℤ) := by
      rw [eq_comm, eq_div_iff (two_ne_zero : (2 : ℚ) ≠ 0), ← zpow_add_one₀
        (two_ne_zero : (2 : ℚ) ≠ 0)]
      norm_num
    have hq253 : q * (2 : ℚ) ^ (-53 : ℤ) < 1 / (bs : ℚ) := by
      have hq2 : q < (2 : ℚ) ^ (53 : ℕ) / (bs : ℚ) := by
        rw [hqdef]
        have hsQ : (size : ℚ) < (2 : ℚ) ^ (53 : ℕ) := by exact_mod_cast hs
        exact (div_lt_div_right hb0).mpr hsQ
      have hmul := mul_lt_mul_of_pos_right hq2
        (show (0 : ℚ) < (2 : ℚ) ^ (-53 : ℤ) by positivity)
      have hcancel : (2 : ℚ) ^ (53 : ℕ) / (bs : ℚ) * (2 : ℚ) ^ (-53 : ℤ)
          = 1 / (bs : ℚ) := by
        rw [div_mul_eq_mul_div, mul_comm, ← zpow_natCast (2 : ℚ) 53,
          ← zpow_add₀ (two_ne_zero : (2 : ℚ) ≠ 0)]
        norm_num
      rw [hcancel] at hmul
      exact hmul
    have hs_half : s / 2 < 1 / (bs : ℚ) := by
      have hstep : s / 2 ≤ q * (2 : ℚ) ^ (-52 : ℤ) / 2 := by
        gcongr
      rw [mul_div_assoc, hhalf] at hstep
      linarith
    -- both bounds on the rounded value
    have habs := roundDouble_sub_abs q hq0
    rw [← hedef, ← hsdef] at habs
    have habs1 : q - s / 2 ≤ roundDouble q := by
      have := (abs_le.mp habs).1
      linarith
    have habs2 : roundDouble q ≤ q + s / 2 := by
      have := (abs_le.mp habs).2
      linarith
    have hck : k < roundDouble q := by linarith
    have hcgrid : ∃ m : ℤ, roundDouble q = (m : ℚ) * s := by
      rw [roundDouble, if_neg (ne_of_gt hq0), ← hedef, ← hsdef]
      exact ⟨_, rfl⟩
    obtain ⟨m, hm⟩ := hcgrid
    have hk1 : ∃ M : ℤ, k + 1 = (M : ℚ) * s := by
      refine ⟨(((size / bs : ℕ) : ℤ) + 1) * 2 ^ (52 - e).toNat, ?_⟩
      have h := int_grid (((size / bs : ℕ) : ℤ) + 1) e he52
      rw [hsdef, hkdef]
      push_cast at h ⊢
      exact h
    obtain ⟨M, hk1⟩ := hk1
    have hms : (m : ℚ) * s < ((M : ℚ) + 1 / 2) * s := by
      calc (m : ℚ) * s = roundDouble q := hm.symm
        _ ≤ q + s / 2 := habs2
        _ < (k + 1) + s / 2 := by linarith
        _ = (M : ℚ) * s + s / 2 := by rw [← hk1]
        _ = ((M : ℚ) + 1 / 2) * s := by ring
    have hmq : (m : ℚ) < (M : ℚ) + 1 / 2 := (mul_lt_mul_right hs0).mp hms
    have hmM : m ≤ M := by
      have hmq1 : (m : ℚ) < (M : ℚ) + 1 := by linarith
      have hmq2 : m < M + 1 := by exact_mod_cast hmq1
      omega
    have hck1 : roundDouble q ≤ k + 1 := by
      rw [hm, hk1]
      exact mul_le_mul_of_nonneg_right (by exact_mod_cast hmM) (le_of_lt hs0)
    have hcast : ((((size / bs : ℕ) : ℤ) + 1 : ℤ) : ℚ) = ((size / bs : ℕ) : ℚ) + 1 := by
      rw [Int.cast_add, Int.cast_natCast, Int.cast_one]
    have hceil : ⌈roundDouble q⌉ = ((size / bs : ℕ) : ℤ) + 1 := by
      rw [Int.ceil_eq_iff]
      constructor
      · rw [hcast]
        rw [hkdef] at hck
        linarith
      · rw [hcast]
        rw [hkdef] at hck1
        linarith
    rw [hceil]
    norm_cast

theorem numBatches_exact (size bs : Nat) (h1 : 1 ≤ bs) (hs : size < 2 ^ 53)
    (hb : bs < 2 ^ 53) :
    numBatches size bs = .ok ((size + bs - 1) / bs) := by
  have hlt24 : ∀ n : Nat, n ≤ 2 ^ 53 → roundDouble (n : ℚ) < (2 : ℚ) ^ (1024 : ℤ) := by
    intro n hn
    rw [roundDouble_nat n hn]
    have h2 : ((n : ℚ)) ≤ ((2 : ℚ) ^ (53 : ℕ)) := by exact_mod_cast hn
    have h3 : ((2 : ℚ) ^ (53 : ℕ)) < (2 : ℚ) ^ (1024 : ℤ) := by
      rw [show ((1024 : ℤ)) = ((1024 : ℕ) : ℤ) by norm_num, zpow_natCast]
      have := pow_lt_pow_right₀ (show (1 : ℚ) < 2 by norm_num)
        (show (53 : ℕ) < 1024 by norm_num)
      exact this
    linarith
  have hds : toDouble size = .ok ((size : ℚ)) := by
    rw [toDouble, roundDouble_nat size (by omega), if_pos]
    rw [← roundDouble_nat size (by omega)]
    exact hlt24 size (by omega)
  have hdb : toDouble bs = .ok ((bs : ℚ)) := by
    rw [toDouble, roundDouble_nat bs (by omega), if_pos]
    rw [← roundDouble_nat bs (by omega)]
    exact hlt24 bs (by omega)
  have hbne : ((bs : ℚ)) ≠ 0 := by
    have h0 : 0 < bs := by omega
    have : (0 : ℚ) < (bs : ℚ) := by exact_mod_cast h0
    exact ne_of_gt this
  rw [numBatches]
  simp only [hdb, hds]
  rw [if_neg hbne]
  rcases Nat.eq_zero_or_pos size with rfl | hpos
  · have hq : ((0 : ℕ) : ℚ) / (bs : ℚ) = 0 := by norm_num
    rw [hq, roundDouble, if_pos rfl]
    have : (((0 : Nat) + bs - 1) / bs) = 0 := Nat.div_eq_of_lt (by omega)
    rw [this]
    norm_num
  · rw [ceil_roundDouble_div size bs h1 hpos hs hb, Int.toNat_natCast]

/--
  Evaluation rule for `numBatches` once both float conversions and the
  zero test are known.
-/
theorem numBatches_eval (size bs : Nat) (b a : ℚ)
    (hdb : toDouble bs = .ok b) (hds : toDouble size = .ok a) (hbne : ¬ b = 0) :
    numBatches size bs = .ok (Int.toNat ⌈roundDouble (a / b)⌉) := by
  rw [numBatches]
  simp only [hdb, hds]
  rw [if_neg hbne]

/--
  C10 counterexample: at `size = 2^54 + 1`, `batch_size = 1` the float
  conversion rounds the size down to `2^54`, so `make_batches` returns
  `2^54` index pairs instead of the claimed `ceil(size / batch_size)
  = 2^54 + 1`, and the pairs no longer cover `[0, size)`.
-/
theorem make_batches_float_counterexample :
    (∃ l, make_batches (2 ^ 54 + 1) 1 = .ok l ∧ l.length = 2 ^ 54) ∧
    (2 ^ 54 : Nat) ≠ (2 ^ 54 + 1 + 1 - 1) / 1 := by
  constructor
  · have hlog : Int.log 2 ((2 ^ 54 + 1 : ℕ) : ℚ) = 54 := by
      apply int_log2_eq
      · push_cast
        rw [show ((54 : ℤ)) = ((54 : ℕ) : ℤ) by norm_num, zpow_natCast]
        norm_num
      · push_cast
        rw [zpow_ofNat]
        norm_num
    have hround : roundDouble ((2 ^ 54 + 1 : ℕ) : ℚ) = ((2 ^ 54 : ℕ) : ℚ) := by
      rw [roundDouble, if_neg (by positivity), hlog]
      have hstep : ((2 : ℚ) ^ ((54 : ℤ) - 52)) = 4 := by
        rw [show ((54 : ℤ) - 52) = ((2 : ℕ) : ℤ) by norm_num, zpow_natCast]
        norm_num
      rw [hstep]
      have hdiv : ((2 ^ 54 + 1 : ℕ) : ℚ) / 4 = ((2 ^ 52 : ℕ) : ℚ) + 1 / 4 := by
        push_cast
        norm_num
      rw [hdiv]
      have hfl : ⌊((2 ^ 52 : ℕ) : ℚ) + 1 / 4⌋ = ((2 ^ 52 : ℕ) : ℤ) := by
        rw [Int.floor_eq_iff]
        constructor
        · push_cast
          norm_num
        · push_cast
          norm_num
      rw [rhe, hfl]
      rw [if_pos (by push_cast; norm_num)]
      push_cast
      norm_num
    have hd1 : toDouble 1 = .ok 1 := by
      have h1r : roundDouble ((1 : ℕ) : ℚ) = ((1 : ℕ) : ℚ) := roundDouble_nat 1 (by norm_num)
      rw [toDouble, h1r, if_pos]
      · norm_num
      · rw [show ((1024 : ℤ)) = ((1024 : ℕ) : ℤ) by norm_num, zpow_natCast]
        push_cast
        norm_num
    have hdbig : toDouble (2 ^ 54 + 1) = .ok ((2 ^ 54 : ℕ) : ℚ) := by
      rw [toDouble, hround, if_pos]
      rw [show ((1024 : ℤ)) = ((1024 : ℕ) : ℤ) by norm_num, zpow_natCast]
      push_cast
      norm_num
    have hqdiv : ((2 ^ 54 : ℕ) : ℚ) / 1 = ((2 ^ 54 : ℕ) : ℚ) := by norm_num
    have hround2 : roundDouble ((2 ^ 54 : ℕ) : ℚ) = ((2 ^ 54 : ℕ) : ℚ) := by
      have hlog2 : Int.log 2 ((2 ^ 54 : ℕ) : ℚ) = 54 := by
        apply int_log2_eq
        · rw [show ((54 : ℤ)) = ((54 : ℕ) : ℤ) by norm_num, zpow_natCast]
          push_cast
          norm_num
        · rw [show ((54 : ℤ) + 1) = ((55 : ℕ) : ℤ) by norm_num, zpow_natCast]
          push_cast
          norm_num
      apply roundDouble_grid_self _ (by positivity) (2 ^ 52)
      rw [hlog2]
      have hstep : ((2 : ℚ) ^ ((54 : ℤ) - 52)) = 4 := by
        rw [show ((54 : ℤ) - 52) = ((2 : ℕ) : ℤ) by norm_num, zpow_natCast]
        norm_num
      rw [hstep]
      push_cast
      norm_num
    have hnum : numBatches (2 ^ 54 + 1) 1 = .ok (2 ^ 54) := by
      rw [numBatches_eval (2 ^ 54 + 1) 1 1 ((2 ^ 54 : ℕ) : ℚ) hd1 hdbig
          (by norm_num)]
      rw [hqdiv, hround2]
      rw [show ((2 ^ 54 : ℕ) : ℚ) = (((2 ^ 54 : ℕ) : ℤ) : ℚ) by push_cast; ring,
        Int.ceil_intCast, Int.toNat_natCast]
    refine ⟨(List.range (2 ^ 54)).map
        (fun i => (i * 1, min (2 ^ 54 + 1) ((i + 1) * 1))), ?_, ?_⟩
    · rw [make_batches, hnum]
    · simp
  · norm_num

/--
  C10 amended: for every `size < 2^53` and `1 ≤ batch_size < 2^53` (sizes for
  which the binary64 division pipeline is exact), `make_batches` returns
  exactly `ceil(size / batch_size)` index pairs, the i-th pair being
  `(i * batch_size, min(size, (i + 1) * batch_size))`; the pairs are
  contiguous (each pair before the last ends where the next begins and has
  length `batch_size`, and the last pair ends at `size`), and for `size = 0`
  the list is empty.
-/
theorem make_batches_spec (size batch_size : Nat) (h : 1 ≤ batch_size)
    (hs : size < 2 ^ 53) (hb : batch_size < 2 ^ 53) :
    ∃ l, make_batches size batch_size = .ok l ∧
      l.length = (size + batch_size - 1) / batch_size ∧
      (∀ i, (hi : i < l.length) →
        l.get ⟨i, hi⟩ = (i * batch_size, min size ((i + 1) * batch_size))) ∧
      (size = 0 → l = []) ∧
      (∀ i, i + 1 < l.length → (i + 1) * batch_size ≤ size) ∧
      (0 < l.length → size ≤ l.length * batch_size) := by
  refine ⟨(List.range ((size + batch_size - 1) / batch_size)).map
      (fun i => (i * batch_size, min size ((i + 1) * batch_size))), ?_, ?_, ?_, ?_, ?_, ?_⟩
  · rw [make_batches, numBatches_exact size batch_size h hs hb]
  · simp
  · intro i hi
    simp [List.get_eq_getElem]
  · intro h0
    subst h0
    have hz : (batch_size - 1) / batch_size = 0 := Nat.div_eq_of_lt (by omega)
    simp [hz]
  · intro i hi
    simp only [List.length_map, List.length_range] at hi
    have hq : ((size + batch_size - 1) / batch_size) * batch_size ≤ size + batch_size - 1 :=
      Nat.div_mul_le_self _ _
    have hmul : (i + 1) * batch_size
        ≤ ((size + batch_size - 1) / batch_size - 1) * batch_size :=
      Nat.mul_le_mul_right _ (by omega)
    have hsub : ((size + batch_size - 1) / batch_size - 1) * batch_size
        = ((size + batch_size - 1) / batch_size) * batch_size - batch_size :=
      Nat.sub_one_mul _ _
    omega
  · intro h0
    simp only [List.length_map, List.length_range] at h0 ⊢
    have hdm := Nat.div_add_mod (size + batch_size - 1) batch_size
    have hmod : (size + batch_size - 1) % batch_size < batch_size :=
      Nat.mod_lt _ (by omega)
    have hcomm : ((size + batch_size - 1) / batch_size) * batch_size
        = batch_size * ((size + batch_size - 1) / batch_size) := Nat.mul_comm _ _
    omega

/-- Witness for the amended C10 at `size = 5`, `batch_size = 2`. -/
theorem make_batches_spec_witness :
    (1 ≤ 2 ∧ 5 < 2 ^ 53 ∧ 2 < 2 ^ 53) ∧
    ∃ l, make_batches 5 2 = .ok l ∧
      l.length = (5 + 2 - 1) / 2 ∧
      (∀ i, (hi : i < l.length) → l.get ⟨i, hi⟩ = (i * 2, min 5 ((i + 1) * 2))) ∧
      (5 = 0 → l = []) ∧
      (∀ i, i + 1 < l.length → (i + 1) * 2 ≤ 5) ∧
      (0 < l.length → 5 ≤ l.length * 2) :=
  ⟨⟨by norm_num, by norm_num, by norm_num⟩,
   make_batches_spec 5 2 (by norm_num) (by norm_num) (by norm_num)⟩

/--
  C2: for every object successfully registered via
  `register_keras_serializable(package, name)`, the registry and its reverse
  mapping agree: `get_registered_name` of the object returns
  `package + '>' + (name if given else the object name)`, and
  `get_registered_object` of that key returns the object.
-/
theorem register_roundtrip (g g2 : GState) (package : String) (name : Option String)
    (arg ret : RegObj)
    (h : register_keras_serializable package name arg g = (.ok ret, g2)) :
    ret = arg ∧
    get_registered_name g2 arg = package ++ ">" ++ name.getD arg.pyName ∧
    get_registered_object g2 (package ++ ">" ++ name.getD arg.pyName) Option.none Option.none
      = some arg := by
  unfold register_keras_serializable at h
  simp only [] at h
  split at h
  · simp at h
  · split at h
    · simp at h
    · split at h
      · simp at h
      · simp only [Prod.mk.injEq, Except.ok.injEq] at h
        obtain ⟨hr, hg⟩ := h
        subst hr
        subst hg
        refine ⟨rfl, ?_, ?_⟩
        · simp [get_registered_name, alistFind_alistSet_self]
        · simp [get_registered_object, alistFind_alistSet_self]

/-- Witness for C2: registering a class in the empty state. -/
theorem register_roundtrip_witness :
    RegObj.klass "M" true true = RegObj.klass "M" true true ∧
    get_registered_name
      (GState.mk [("Custom>M", RegObj.klass "M" true true)]
        [(RegObj.klass "M" true true, "Custom>M")])
      (RegObj.klass "M" true true) = "Custom" ++ ">" ++ "M" ∧
    get_registered_object
      (GState.mk [("Custom>M", RegObj.klass "M" true true)]
        [(RegObj.klass "M" true true, "Custom>M")])
      ("Custom" ++ ">" ++ "M") Option.none Option.none
      = some (RegObj.klass "M" true true) :=
  register_roundtrip emptyG
    (GState.mk [("Custom>M", RegObj.klass "M" true true)]
      [(RegObj.klass "M" true true, "Custom>M")])
    "Custom" Option.none (RegObj.klass "M" true true) (RegObj.klass "M" true true) (by rfl)

/--
  C3: whatever dictionaries the scope was built over and whatever
  modifications are applied to the state between `__enter__` and `__exit__`,
  after `__exit__` the global custom-object dictionary is exactly its state
  at the moment `__enter__` ran.
-/
theorem scope_exit_restores (dicts : List (List (String × RegObj))) (g : GState)
    (modify : GState → GState) :
    (scope_exit (scope_enter dicts g).1 (modify (scope_enter dicts g).2)).customObjects
      = g.customObjects :=
  rfl

/--
  C9: `register_keras_serializable` raises `ValueError` when the argument is
  a class without `get_config`, when the computed key is already registered,
  or when the object is already in the reverse registry, and then leaves both
  registries unchanged; on success it appends exactly one entry to each
  registry and returns the object itself.
-/
theorem register_atomic (g : GState) (package : String) (name : Option String) (arg : RegObj) :
    (((arg.isClass && !arg.hasGetConfigAttr) = true
        ∨ (alistFind g.customObjects (package ++ ">" ++ name.getD arg.pyName)).isSome = true
        ∨ (alistFind g.customNames arg).isSome = true) →
      ∃ m, register_keras_serializable package name arg g = (.error (.valueError m), g)) ∧
    ((arg.isClass && !arg.hasGetConfigAttr) = false →
      alistFind g.customObjects (package ++ ">" ++ name.getD arg.pyName) = none →
      alistFind g.customNames arg = none →
      register_keras_serializable package name arg g
        = (.ok arg,
           GState.mk (g.customObjects ++ [(package ++ ">" ++ name.getD arg.pyName, arg)])
             (g.customNames ++ [(arg, package ++ ">" ++ name.getD arg.pyName)]))) := by
  constructor
  · intro hbad
    unfold register_keras_serializable
    simp only []
    split
    · exact ⟨_, rfl⟩
    · split
      · exact ⟨_, rfl⟩
      · split
        · exact ⟨_, rfl⟩
        · rename_i h1 h2 h3
          rcases hbad with hb | hb | hb
          · exact absurd hb h1
          · exact absurd hb (by simpa using h2)
          · exact absurd hb (by simpa using h3)
  · intro h1 h2 h3
    unfold register_keras_serializable
    simp only [h1, h2, h3]
    simp [alistSet_append_of_find_none g.customObjects _ arg h2,
      alistSet_append_of_find_none g.customNames arg _ h3]

/--
  Witness for C9: a duplicate registration fails and leaves the state
  unchanged, and a fresh registration appends one entry to each registry.
-/
theorem register_atomic_witness :
    (∃ m, register_keras_serializable "Custom" Option.none (RegObj.klass "M" true true)
        (GState.mk [("Custom>M", RegObj.funcObj "f")] [])
      = (.error (.valueError m), GState.mk [("Custom>M", RegObj.funcObj "f")] [])) ∧
    register_keras_serializable "Custom" Option.none (RegObj.klass "M" true true) emptyG
      = (.ok (RegObj.klass "M" true true),
         GState.mk ([] ++ [("Custom" ++ ">" ++ "M", RegObj.klass "M" true true)])
           ([] ++ [(RegObj.klass "M" true true, "Custom" ++ ">" ++ "M")])) :=
  ⟨(register_atomic (GState.mk [("Custom>M", RegObj.funcObj "f")] []) "Custom" Option.none
      (RegObj.klass "M" true true)).1 (Or.inr (Or.inl (by decide))),
   (register_atomic emptyG "Custom" Option.none (RegObj.klass "M" true true)).2
      (by decide) (by decide) (by decide)⟩

/--
  C8: `__exit__` restores only the forward registry and leaves the reverse
  registry untouched: after registering an object inside a scope and leaving
  the scope, `get_registered_name` of the object still returns the registered
  key while `get_registered_object` of that key returns `None`.
-/
theorem scope_exit_leaves_names (dicts : List (List (String × RegObj))) (g g2 : GState)
    (package : String) (name : Option String) (arg : RegObj)
    (h : register_keras_serializable package name arg (scope_enter dicts g).2 = (.ok arg, g2)) :
    (scope_exit (scope_enter dicts g).1 g2).customNames = g2.customNames ∧
    get_registered_name (scope_exit (scope_enter dicts g).1 g2) arg
      = package ++ ">" ++ name.getD arg.pyName ∧
    get_registered_object (scope_exit (scope_enter dicts g).1 g2)
      (package ++ ">" ++ name.getD arg.pyName) Option.none Option.none = none := by
  unfold register_keras_serializable at h
  simp only [] at h
  split at h
  · simp at h
  · split at h
    · simp at h
    · split at h
      · simp at h
      · rename_i h1 h2 h3
        simp only [Prod.mk.injEq, Except.ok.injEq] at h
        obtain ⟨-, hg⟩ := h
        have hbase : alistFind g.customObjects (package ++ ">" ++ name.getD arg.pyName)
            = none := by
          by_contra hc
          have hsome : (alistFind g.customObjects
              (package ++ ">" ++ name.getD arg.pyName)).isSome := by
            cases hfind : alistFind g.customObjects (package ++ ">" ++ name.getD arg.pyName) with
            | none => exact absurd hfind hc
            | some o => simp [hfind]
          exact h2 (alistFind_isSome_foldl_update dicts g.customObjects _ hsome)
        refine ⟨rfl, ?_, ?_⟩
        · rw [← hg]
          simp [scope_exit, get_registered_name, alistFind_alistSet_self]
        · simp [scope_exit, scope_enter, get_registered_object, hbase, truthy]

/-- Witness for C8: registering inside a scope over the empty state. -/
theorem scope_exit_leaves_names_witness :
    (scope_exit (scope_enter [] emptyG).1
        (GState.mk [("Custom>M", RegObj.klass "M" true true)]
          [(RegObj.klass "M" true true, "Custom>M")])).customNames
      = (GState.mk [("Custom>M", RegObj.klass "M" true true)]
          [(RegObj.klass "M" true true, "Custom>M")]).customNames ∧
    get_registered_name
      (scope_exit (scope_enter [] emptyG).1
        (GState.mk [("Custom>M", RegObj.klass "M" true true)]
          [(RegObj.klass "M" true true, "Custom>M")]))
      (RegObj.klass "M" true true) = "Custom" ++ ">" ++ "M" ∧
    get_registered_object
      (scope_exit (scope_enter [] emptyG).1
        (GState.mk [("Custom>M", RegObj.klass "M" true true)]
          [(RegObj.klass "M" true true, "Custom>M")]))
      ("Custom" ++ ">" ++ "M") Option.none Option.none = none :=
  scope_exit_leaves_names [] emptyG
    (GState.mk [("Custom>M", RegObj.klass "M" true true)]
      [(RegObj.klass "M" true true, "Custom>M")])
    "Custom" Option.none (RegObj.klass "M" true true) (by rfl)

theorem serializeConfigEntries_cons (g : GState) (k : String) (item : PyVal) (r : PyDict) :
    serializeConfigEntries g (.cons k item r)
      = .cons k (serializeItem g item) (serializeConfigEntries g r) := by
  rw [serializeConfigEntries, serializeItem]

theorem serializeConfigEntries_find? (g : GState) : ∀ (d : PyDict) (k : String),
    (serializeConfigEntries g d).find? k = (d.find? k).map (serializeItem g)
  | .nil, k => by
    rw [serializeConfigEntries]
    simp [PyDict.find?]
  | .cons k' item r, k => by
    rw [serializeConfigEntries_cons]
    by_cases hk : k' = k
    · simp [PyDict.find?, hk]
    · simp [PyDict.find?, hk, serializeConfigEntries_find? g r k]

/--
  C4: on an instance whose class has `get_config`, `serialize_keras_object`
  returns a dictionary with exactly the keys `class_name` and `config`;
  `class_name` carries the name the registry associates with the class (the
  registered key when the class is registered, the plain `__name__`
  otherwise) and `config` carries the entry-wise serialization of
  `get_config()`, which leaves string values unchanged.
-/
theorem serialize_keras_object_structure (g : GState) (c : RegObj) (cfg : PyDict)
    (h : c.hasGetConfigAttr = true) :
    ∃ sc : PyDict,
      serialize_keras_object g (.obj c cfg) = .ok (.dict sc) ∧
      sc.keys = ["class_name", "config"] ∧
      sc.find? "class_name" = some (.str (get_registered_name g c)) ∧
      (∀ n, alistFind g.customNames c = some n → get_registered_name g c = n) ∧
      (alistFind g.customNames c = none → get_registered_name g c = c.pyName) ∧
      sc.find? "config" = some (.dict (serializeConfigEntries g cfg)) ∧
      (∀ k v, cfg.find? k = some v →
        (serializeConfigEntries g cfg).find? k = some (serializeItem g v)) ∧
      (∀ s, serializeItem g (.str s) = .str s) := by
  refine ⟨.cons "class_name" (.str (get_registered_name g c))
      (.cons "config" (.dict (serializeConfigEntries g cfg)) .nil),
    ?_, rfl, by simp [PyDict.find?], ?_, ?_, by simp [PyDict.find?], ?_, ?_⟩
  · rw [serialize_keras_object]
    simp [h]
  · intro n hn
    simp [get_registered_name, hn]
  · intro hn
    simp [get_registered_name, hn]
  · intro k v hv
    rw [serializeConfigEntries_find? g cfg k, hv]
    rfl
  · intro s
    simp [serializeItem, PyVal.isStr]

/-- Witness for C4: a registered class with a one-entry string config. -/
theorem serialize_keras_object_structure_witness :
    ∃ sc : PyDict,
      serialize_keras_object
          (GState.mk [("pkg>L", RegObj.klass "L" true true)]
            [(RegObj.klass "L" true true, "pkg>L")])
          (.obj (RegObj.klass "L" true true) (.cons "units" (.str "32") .nil))
        = .ok (.dict sc) ∧
      sc.keys = ["class_name", "config"] ∧
      sc.find? "class_name" = some (.str (get_registered_name
        (GState.mk [("pkg>L", RegObj.klass "L" true true)]
          [(RegObj.klass "L" true true, "pkg>L")])
        (RegObj.klass "L" true true))) ∧
      (∀ n, alistFind (GState.mk [("pkg>L", RegObj.klass "L" true true)]
            [(RegObj.klass "L" true true, "pkg>L")]).customNames
            (RegObj.klass "L" true true) = some n →
        get_registered_name (GState.mk [("pkg>L", RegObj.klass "L" true true)]
          [(RegObj.klass "L" true true, "pkg>L")]) (RegObj.klass "L" true true) = n) ∧
      ((alistFind (GState.mk [("pkg>L", RegObj.klass "L" true true)]
            [(RegObj.klass "L" true true, "pkg>L")]).customNames
            (RegObj.klass "L" true true)) = none →
        get_registered_name (GState.mk [("pkg>L", RegObj.klass "L" true true)]
          [(RegObj.klass "L" true true, "pkg>L")]) (RegObj.klass "L" true true)
          = (RegObj.klass "L" true true).pyName) ∧
      sc.find? "config" = some (.dict (serializeConfigEntries
        (GState.mk [("pkg>L", RegObj.klass "L" true true)]
          [(RegObj.klass "L" true true, "pkg>L")])
        (.cons "units" (.str "32") .nil))) ∧
      (∀ k v, PyDict.find? (.cons "units" (.str "32") .nil) k = some v →
        (serializeConfigEntries (GState.mk [("pkg>L", RegObj.klass "L" true true)]
          [(RegObj.klass "L" true true, "pkg>L")])
          (.cons "units" (.str "32") .nil)).find? k
          = some (serializeItem (GState.mk [("pkg>L", RegObj.klass "L" true true)]
            [(RegObj.klass "L" true true, "pkg>L")]) v)) ∧
      (∀ s, serializeItem (GState.mk [("pkg>L", RegObj.klass "L" true true)]
          [(RegObj.klass "L" true true, "pkg>L")]) (.str s) = .str s) :=
  serialize_keras_object_structure
    (GState.mk [("pkg>L", RegObj.klass "L" true true)]
      [(RegObj.klass "L" true true, "pkg>L")])
    (RegObj.klass "L" true true) (.cons "units" (.str "32") .nil) (by decide)

/--
  C5 counterexample: with the name registered both globally (to function `A`)
  and in the caller-supplied `custom_objects` (to function `B`),
  `get_registered_object` prefers the global entry while the bare-string
  branch of `deserialize_keras_object` prefers `custom_objects`, so the
  single global-first precedence claimed for both paths fails.
-/
theorem string_precedence_counterexample :
    get_registered_object (GState.mk [("n", RegObj.funcObj "A")] []) "n"
        (some [("n", RegObj.funcObj "B")]) Option.none = some (RegObj.funcObj "A") ∧
    deserialize_keras_object (GState.mk [("n", RegObj.funcObj "A")] []) (.str "n")
        Option.none (some [("n", RegObj.funcObj "B")]) = .ok (.func "B") ∧
    PyVal.func "B" ≠ PyVal.func "A" := by
  refine ⟨by decide, ?_, by decide⟩
  rw [deserialize_keras_object]
  simp [deserializeStringLookup, truthy, alistFind]

/--
  C5 amended: during deserialization `get_registered_object` (used for class
  names in config dictionaries) resolves names with precedence global
  registry, then `custom_objects`, then `module_objects`; the bare-string
  branch of `deserialize_keras_object` instead resolves with precedence
  `custom_objects`, then global registry, then `module_objects`; in both the
  first dictionary containing the name wins.
-/
theorem name_resolution_precedence (g : GState) (n : String)
    (custom module : Option (List (String × RegObj))) :
    (∀ o, alistFind g.customObjects n = some o →
      get_registered_object g n custom module = some o) ∧
    (alistFind g.customObjects n = none → truthy custom = true →
      ∀ o, alistFind (custom.getD []) n = some o →
        get_registered_object g n custom module = some o) ∧
    (alistFind g.customObjects n = none →
      (truthy custom = false ∨ alistFind (custom.getD []) n = none) →
      truthy module = true →
      ∀ o, alistFind (module.getD []) n = some o →
        get_registered_object g n custom module = some o) ∧
    (truthy custom = true → ∀ o, alistFind (custom.getD []) n = some o →
      deserializeStringLookup g n module custom = .ok o) ∧
    ((truthy custom = false ∨ alistFind (custom.getD []) n = none) →
      ∀ o, alistFind g.customObjects n = some o →
        deserializeStringLookup g n module custom = .ok o) ∧
    ((truthy custom = false ∨ alistFind (custom.getD []) n = none) →
      alistFind g.customObjects n = none →
      ∀ mo, module = some mo → ∀ o, alistFind mo n = some o →
        deserializeStringLookup g n module custom = .ok o) ∧
    (∀ f, deserializeStringLookup g n module custom = .ok (.funcObj f) →
      deserialize_keras_object g (.str n) module custom = .ok (.func f)) := by
  refine ⟨?_, ?_, ?_, ?_, ?_, ?_, ?_⟩
  · intro o ho
    simp [get_registered_object, ho]
  · intro hg hc o ho
    simp [get_registered_object, hg, hc, ho]
  · intro hg hc hm o ho
    rcases hc with hc | hc
    · simp [get_registered_object, hg, hc, hm, ho]
    · simp [get_registered_object, hg, hc, hm, ho]
  · intro hc o ho
    simp [deserializeStringLookup, hc, ho]
  · intro hc o ho
    rcases hc with hc | hc
    · simp [deserializeStringLookup, hc, ho]
    · simp [deserializeStringLookup, hc, ho]
  · intro hc hg mo hmo o ho
    subst hmo
    rcases hc with hc | hc
    · simp [deserializeStringLookup, hc, hg, ho]
    · simp [deserializeStringLookup, hc, hg, ho]
  · intro f hf
    rw [deserialize_keras_object]
    simp [hf]

/--
  Witness for the amended C5 at the counterexample state: the class-name
  path returns the global entry, the bare-string path the custom entry.
-/
theorem name_resolution_precedence_witness :
    get_registered_object (GState.mk [("n", RegObj.funcObj "A")] []) "n"
        (some [("n", RegObj.funcObj "B")]) Option.none = some (RegObj.funcObj "A") ∧
    deserializeStringLookup (GState.mk [("n", RegObj.funcObj "A")] []) "n"
        Option.none (some [("n", RegObj.funcObj "B")]) = .ok (RegObj.funcObj "B") :=
  ⟨(name_resolution_precedence (GState.mk [("n", RegObj.funcObj "A")] []) "n"
      (some [("n", RegObj.funcObj "B")]) Option.none).1 (RegObj.funcObj "A") (by decide),
   ((name_resolution_precedence (GState.mk [("n", RegObj.funcObj "A")] []) "n"
      (some [("n", RegObj.funcObj "B")]) Option.none).2.2.2.1 (by decide)
      (RegObj.funcObj "B") (by decide))⟩

/-- Whether a call result is a raised `ValueError`. -/
def isValueError {α : Type} : Except PyErr α → Bool
  | .error (.valueError _) => true
  | _ => false

/--
  C6 counterexample: two of the listed reconstruction failures raise
  exceptions other than `ValueError`.  A bare string found in none of the
  lookup dictionaries with `module_objects` left as `None` raises
  `AttributeError` (from `None.get`); a dict whose `class_name` is not a
  string (here the integer 5) found in none of them raises `TypeError` while
  the unknown-name `ValueError` message is being concatenated.
-/
theorem deserialize_non_valueerror_counterexample :
    (deserialize_keras_object emptyG (.str "missing") Option.none Option.none
      = .error (.attributeError "NoneType object has no attribute get") ∧
     isValueError
      (deserialize_keras_object emptyG (.str "missing") Option.none Option.none)
      = false) ∧
    (deserialize_keras_object emptyG
        (.dict (.cons "class_name" (.int 5) (.cons "config" (.dict .nil) .nil)))
        Option.none Option.none
      = .error (.typeError "can only concatenate str to str") ∧
     isValueError
      (deserialize_keras_object emptyG
        (.dict (.cons "class_name" (.int 5) (.cons "config" (.dict .nil) .nil)))
        Option.none Option.none)
      = false) := by
  have h1 : deserialize_keras_object emptyG (.str "missing") Option.none Option.none
      = .error (.attributeError "NoneType object has no attribute get") := by
    rw [deserialize_keras_object]
    simp [deserializeStringLookup, truthy, alistFind, emptyG]
  have h2 : deserialize_keras_object emptyG
      (.dict (.cons "class_name" (.int 5) (.cons "config" (.dict .nil) .nil)))
      Option.none Option.none
      = .error (.typeError "can only concatenate str to str") := by
    have hcc : class_and_config_for_serialized_keras_object emptyG
        (.dict (.cons "class_name" (.int 5) (.cons "config" (.dict .nil) .nil)))
        Option.none Option.none
        = .error (.typeError "can only concatenate str to str") := by
      rw [class_and_config_for_serialized_keras_object]
      simp [PyDict.member, PyDict.find?]
    rw [deserialize_keras_object, hcc]
  exact ⟨⟨h1, by rw [h1]; rfl⟩, ⟨h2, by rw [h2]; rfl⟩⟩

theorem deserialize_dict_ok_of_class_and_config (g : GState)
    (module custom : Option (List (String × RegObj))) (d : PyDict) (cls : RegObj)
    (cc : PyDict)
    (h : class_and_config_for_serialized_keras_object g (.dict d) module custom
      = .ok (cls, cc)) :
    ∃ v, deserialize_keras_object g (.dict d) module custom = .ok v := by
  rcases cls with ⟨n, hg, hf⟩ | f
  · cases hf
    · refine ⟨.obj (.klass n hg false) cc, ?_⟩
      rw [deserialize_keras_object, h]
      simp [RegObj.hasFromConfigAttr]
    · refine ⟨fromConfig (.klass n hg true) cc, ?_⟩
      rw [deserialize_keras_object, h]
      simp [RegObj.hasFromConfigAttr]
  · refine ⟨.applied f cc, ?_⟩
    rw [deserialize_keras_object, h]
    simp [RegObj.hasFromConfigAttr]

theorem deserialize_str_ok_of_lookup (g : GState)
    (module custom : Option (List (String × RegObj))) (s : String) (o : RegObj)
    (h : deserializeStringLookup g s module custom = .ok o) :
    ∃ v, deserialize_keras_object g (.str s) module custom = .ok v := by
  rcases o with ⟨n, hg, hf⟩ | f
  · refine ⟨.obj (.klass n hg hf) .nil, ?_⟩
    rw [deserialize_keras_object]
    simp [h]
  · refine ⟨.func f, ?_⟩
    rw [deserialize_keras_object]
    simp [h]

theorem stringLookup_found (g : GState)
    (module custom : Option (List (String × RegObj))) (s : String)
    (h : (truthy custom = true ∧ (alistFind (custom.getD []) s).isSome = true)
      ∨ (alistFind g.customObjects s).isSome = true
      ∨ (∃ mo, module = some mo ∧ (alistFind mo s).isSome = true)) :
    ∃ o, deserializeStringLookup g s module custom = .ok o := by
  unfold deserializeStringLookup
  rcases h1 : (if truthy custom then alistFind (custom.getD []) s else Option.none)
    with - | o1
  · rcases h2 : alistFind g.customObjects s with - | o2
    · rcases h with ⟨hct, hcf⟩ | hgf | ⟨mo, hmo, hmf⟩
      · rw [if_pos hct] at h1
        rw [h1] at hcf
        simp at hcf
      · rw [h2] at hgf
        simp at hgf
      · subst hmo
        rcases h3 : alistFind mo s with - | o3
        · rw [h3] at hmf
          simp at hmf
        · exact ⟨o3, by simp [h3]⟩
    · exact ⟨o2, by simp⟩
  · exact ⟨o1, by simp⟩

/--
  C6 amended: `deserialize_keras_object` returns `None` for `None` and the
  function itself for a function; it raises `ValueError` for a dict lacking
  the `class_name` or `config` key, for a dict whose string `class_name` is
  found in none of the three lookup dictionaries, for a bare string found in
  none of them provided `module_objects` is not `None` — with `module_objects`
  `None` the failure is an `AttributeError` — and for an identifier that is
  neither `None`, a dict, a string nor a function; a dict whose `class_name`
  is present but not a string raises `TypeError`, and one with a known class
  whose `config` is not a dict raises `AttributeError`, in both cases not
  `ValueError`; a dict with a known class and a dict `config` deserializes
  without raising whenever its item loop does, and otherwise raises exactly
  the error of the item loop (so nested errors are again instances of these
  cases); a bare string found in any of the three dictionaries deserializes
  without raising.
-/
theorem deserialize_valueerror_characterization (g : GState)
    (module custom : Option (List (String × RegObj))) :
    (deserialize_keras_object g .none module custom = .ok .none) ∧
    (∀ f, deserialize_keras_object g (.func f) module custom = .ok (.func f)) ∧
    (∀ b, ∃ m, deserialize_keras_object g (.bool b) module custom
      = .error (.valueError m)) ∧
    (∀ n, ∃ m, deserialize_keras_object g (.int n) module custom
      = .error (.valueError m)) ∧
    (∀ c cfg, ∃ m, deserialize_keras_object g (.obj c cfg) module custom
      = .error (.valueError m)) ∧
    (∀ f kw, ∃ m, deserialize_keras_object g (.applied f kw) module custom
      = .error (.valueError m)) ∧
    (∀ d : PyDict, (d.member "class_name" = false ∨ d.member "config" = false) →
      ∃ m, deserialize_keras_object g (.dict d) module custom
        = .error (.valueError m)) ∧
    (∀ (d : PyDict) (cn : String), d.member "config" = true →
      d.find? "class_name" = some (.str cn) →
      get_registered_object g cn custom module = none →
      ∃ m, deserialize_keras_object g (.dict d) module custom
        = .error (.valueError m)) ∧
    (∀ (d : PyDict) (v : PyVal), d.member "config" = true →
      d.find? "class_name" = some v → (∀ sv, v ≠ .str sv) →
      ∃ m, deserialize_keras_object g (.dict d) module custom
        = .error (.typeError m)) ∧
    (∀ (d : PyDict) (cn : String) (cls : RegObj) (v : PyVal),
      d.find? "class_name" = some (.str cn) →
      get_registered_object g cn custom module = some cls →
      d.find? "config" = some v → (∀ cc : PyDict, v ≠ .dict cc) →
      ∃ m, deserialize_keras_object g (.dict d) module custom
        = .error (.attributeError m)) ∧
    (∀ (d : PyDict) (cn : String) (cls : RegObj) (cc cc2 : PyDict),
      d.find? "class_name" = some (.str cn) →
      get_registered_object g cn custom module = some cls →
      d.find? "config" = some (.dict cc) →
      deserializeConfigItems g cc module custom = .ok cc2 →
      ∃ v, deserialize_keras_object g (.dict d) module custom = .ok v) ∧
    (∀ (d : PyDict) (cn : String) (cls : RegObj) (cc : PyDict) (e : PyErr),
      d.find? "class_name" = some (.str cn) →
      get_registered_object g cn custom module = some cls →
      d.find? "config" = some (.dict cc) →
      deserializeConfigItems g cc module custom = .error e →
      deserialize_keras_object g (.dict d) module custom = .error e) ∧
    (∀ s, (truthy custom = false ∨ alistFind (custom.getD []) s = none) →
      alistFind g.customObjects s = none → module = Option.none →
      ∃ m, deserialize_keras_object g (.str s) module custom
        = .error (.attributeError m)) ∧
    (∀ s mo, (truthy custom = false ∨ alistFind (custom.getD []) s = none) →
      alistFind g.customObjects s = none → module = some mo → alistFind mo s = none →
      ∃ m, deserialize_keras_object g (.str s) module custom
        = .error (.valueError m)) ∧
    (∀ s, ((truthy custom = true ∧ (alistFind (custom.getD []) s).isSome = true)
        ∨ (alistFind g.customObjects s).isSome = true
        ∨ (∃ mo, module = some mo ∧ (alistFind mo s).isSome = true)) →
      ∃ v, deserialize_keras_object g (.str s) module custom = .ok v) := by
  refine ⟨?_, ?_, ?_, ?_, ?_, ?_, ?_, ?_, ?_, ?_, ?_, ?_, ?_, ?_, ?_⟩
  · rw [deserialize_keras_object]
  · intro f
    rw [deserialize_keras_object]
  · intro b
    exact ⟨_, by rw [deserialize_keras_object] <;> simp⟩
  · intro n
    exact ⟨_, by rw [deserialize_keras_object] <;> simp⟩
  · intro c cfg
    exact ⟨_, by rw [deserialize_keras_object] <;> simp⟩
  · intro f kw
    exact ⟨_, by rw [deserialize_keras_object] <;> simp⟩
  · intro d hmiss
    have hcc : class_and_config_for_serialized_keras_object g (.dict d) module custom
        = .error (.valueError "Improper config format") := by
      rw [class_and_config_for_serialized_keras_object]
      rcases hmiss with hm | hm <;> simp [hm]
    exact ⟨_, by rw [deserialize_keras_object, hcc]⟩
  · intro d cn hconf hcn hro
    have hm1 : d.member "class_name" = true := by simp [PyDict.member, hcn]
    have hcc : class_and_config_for_serialized_keras_object g (.dict d) module custom
        = .error (.valueError ("Unknown object: " ++ cn)) := by
      rw [class_and_config_for_serialized_keras_object]
      simp [hm1, hconf, hcn, hro]
    exact ⟨_, by rw [deserialize_keras_object, hcc]⟩
  · intro d v hconf hcn hns
    have hm1 : d.member "class_name" = true := by simp [PyDict.member, hcn]
    have hcc : class_and_config_for_serialized_keras_object g (.dict d) module custom
        = .error (.typeError "can only concatenate str to str") := by
      rw [class_and_config_for_serialized_keras_object]
      cases v with
      | str sv => exact absurd rfl (hns sv)
      | none => simp [hm1, hconf, hcn]
      | bool b => simp [hm1, hconf, hcn]
      | int n => simp [hm1, hconf, hcn]
      | func f => simp [hm1, hconf, hcn]
      | obj c2 cfg2 => simp [hm1, hconf, hcn]
      | applied f2 kw2 => simp [hm1, hconf, hcn]
      | dict dd => simp [hm1, hconf, hcn]
    exact ⟨_, by rw [deserialize_keras_object, hcc]⟩
  · intro d cn cls v hcn hcls hcfg hnd
    have hm1 : d.member "class_name" = true := by simp [PyDict.member, hcn]
    have hm2 : d.member "config" = true := by simp [PyDict.member, hcfg]
    have hcc : class_and_config_for_serialized_keras_object g (.dict d) module custom
        = .error (.attributeError "object has no attribute items") := by
      rw [class_and_config_for_serialized_keras_object]
      simp only [hm1, hm2, Bool.not_true, Bool.or_self, Bool.false_eq_true, if_false, hcn]
      simp only [hcls]
      split
      · rename_i cc heq
        rw [hcfg] at heq
        simp only [Option.some.injEq] at heq
        exact absurd heq (hnd cc)
      · rfl
    exact ⟨_, by rw [deserialize_keras_object, hcc]⟩
  · intro d cn cls cc cc2 hcn hcls hcfg hitems
    have hm1 : d.member "class_name" = true := by simp [PyDict.member, hcn]
    have hm2 : d.member "config" = true := by simp [PyDict.member, hcfg]
    have hclass : class_and_config_for_serialized_keras_object g (.dict d) module custom
        = .ok (cls, cc2) := by
      rw [class_and_config_for_serialized_keras_object]
      simp only [hm1, hm2, Bool.not_true, Bool.or_self, Bool.false_eq_true, if_false, hcn]
      simp only [hcls]
      split <;> simp_all [hitems]
    exact deserialize_dict_ok_of_class_and_config g module custom d cls cc2 hclass
  · intro d cn cls cc e hcn hcls hcfg herr
    have hm1 : d.member "class_name" = true := by simp [PyDict.member, hcn]
    have hm2 : d.member "config" = true := by simp [PyDict.member, hcfg]
    have hclass : class_and_config_for_serialized_keras_object g (.dict d) module custom
        = .error e := by
      rw [class_and_config_for_serialized_keras_object]
      simp only [hm1, hm2, Bool.not_true, Bool.or_self, Bool.false_eq_true, if_false, hcn]
      simp only [hcls]
      split <;> simp_all [herr]
    rw [deserialize_keras_object, hclass]
  · intro s hc hg hmod
    subst hmod
    have hsl : deserializeStringLookup g s Option.none custom
        = .error (.attributeError "NoneType object has no attribute get") := by
      unfold deserializeStringLookup
      rcases hc with hc | hc <;> simp [hc, hg]
    refine ⟨"NoneType object has no attribute get", ?_⟩
    rw [deserialize_keras_object]
    simp [hsl]
  · intro s mo hc hg hmod hmo
    subst hmod
    have hsl : deserializeStringLookup g s (some mo) custom
        = .error (.valueError ("Unknown object:" ++ s)) := by
      unfold deserializeStringLookup
      rcases hc with hc | hc <;> simp [hc, hg, hmo]
    refine ⟨"Unknown object:" ++ s, ?_⟩
    rw [deserialize_keras_object]
    simp [hsl]
  · intro s hfound
    obtain ⟨o, ho⟩ := stringLookup_found g module custom s hfound
    exact deserialize_str_ok_of_lookup g module custom s o ho

/-- Witness for the amended C6 at concrete inputs. -/
theorem deserialize_valueerror_characterization_witness :
    deserialize_keras_object (GState.mk [("K", RegObj.klass "K" true true)] []) .none
      Option.none Option.none = .ok .none ∧
    (∃ m, deserialize_keras_object (GState.mk [("K", RegObj.klass "K" true true)] [])
      (.dict .nil) Option.none Option.none = .error (.valueError m)) ∧
    (∃ m, deserialize_keras_object (GState.mk [("K", RegObj.klass "K" true true)] [])
      (.dict (.cons "class_name" (.str "X") (.cons "config" (.dict .nil) .nil)))
      Option.none Option.none = .error (.valueError m)) ∧
    (∃ m, deserialize_keras_object (GState.mk [("K", RegObj.klass "K" true true)] [])
      (.dict (.cons "class_name" (.int 7) (.cons "config" (.dict .nil) .nil)))
      Option.none Option.none = .error (.typeError m)) ∧
    (∃ v, deserialize_keras_object (GState.mk [("K", RegObj.klass "K" true true)] [])
      (.dict (.cons "class_name" (.str "K") (.cons "config" (.dict .nil) .nil)))
      Option.none Option.none = .ok v) ∧
    (∃ v, deserialize_keras_object (GState.mk [("K", RegObj.klass "K" true true)] [])
      (.str "K") Option.none Option.none = .ok v) :=
  ⟨(deserialize_valueerror_characterization (GState.mk [("K", RegObj.klass "K" true true)] [])
      Option.none Option.none).1,
   (deserialize_valueerror_characterization (GState.mk [("K", RegObj.klass "K" true true)] [])
      Option.none Option.none).2.2.2.2.2.2.1 .nil (Or.inl (by decide)),
   (deserialize_valueerror_characterization (GState.mk [("K", RegObj.klass "K" true true)] [])
      Option.none Option.none).2.2.2.2.2.2.2.1
      (.cons "class_name" (.str "X") (.cons "config" (.dict .nil) .nil)) "X"
      (by decide) (by decide) (by decide),
   (deserialize_valueerror_characterization (GState.mk [("K", RegObj.klass "K" true true)] [])
      Option.none Option.none).2.2.2.2.2.2.2.2.1
      (.cons "class_name" (.int 7) (.cons "config" (.dict .nil) .nil)) (.int 7)
      (by decide) (by decide) (fun sv h => PyVal.noConfusion h),
   (deserialize_valueerror_characterization (GState.mk [("K", RegObj.klass "K" true true)] [])
      Option.none Option.none).2.2.2.2.2.2.2.2.2.2.1
      (.cons "class_name" (.str "K") (.cons "config" (.dict .nil) .nil)) "K"
      (RegObj.klass "K" true true) .nil .nil
      (by decide) (by decide) (by decide) (by rw [deserializeConfigItems]),
   (deserialize_valueerror_characterization (GState.mk [("K", RegObj.klass "K" true true)] [])
      Option.none Option.none).2.2.2.2.2.2.2.2.2.2.2.2.2.2 "K"
      (Or.inr (Or.inl (by decide)))⟩

/--
  The object is registered consistently: the reverse registry maps it to a
  key under which the forward registry holds it back.
-/
def registeredConsistently (g : GState) (o : RegObj) : Bool :=
  match alistFind g.customNames o with
  | some k => decide (alistFind g.customObjects k = some o)
  | none => false

/-
  Values on which serialization followed by deserialization (with neither
  `custom_objects` nor `module_objects` supplied) is lossless: every class
  and function mentioned is registered consistently, classes implement
  `get_config` and `from_config`, no string value is shadowed by a registered
  function of the same name, and no raw dictionary value carries the
  passive-serialization marker.
-/
mutual
def wfVal (g : GState) : PyVal → Bool
  | .none => true
  | .bool _ => true
  | .int _ => true
  | .str s =>
    (match alistFind g.customObjects s with
     | some (.funcObj _) => false
     | _ => true)
  | .func f => registeredConsistently g (.funcObj f)
  | .obj c cfg =>
    c.isClass && c.hasGetConfigAttr && c.hasFromConfigAttr &&
      registeredConsistently g c && wfDict g cfg
  | .applied _ _ => false
  | .dict d => !d.member "__passive_serialization__"
def wfDict (g : GState) : PyDict → Bool
  | .nil => true
  | .cons _ v r => wfVal g v && wfDict g r
end

theorem registeredConsistently_spec (g : GState) (o : RegObj)
    (h : registeredConsistently g o = true) :
    ∃ k, alistFind g.customNames o = some k ∧ alistFind g.customObjects k = some o ∧
      get_registered_name g o = k := by
  unfold registeredConsistently at h
  rcases hk : alistFind g.customNames o with - | k
  · rw [hk] at h
    simp at h
  · rw [hk] at h
    simp at h
    exact ⟨k, rfl, h, by simp [get_registered_name, hk]⟩

theorem serialize_none (g : GState) : serialize_keras_object g .none = .ok .none := by
  rw [serialize_keras_object]

theorem serialize_bool (g : GState) (b : Bool) :
    serialize_keras_object g (.bool b) = .error (.valueError "Cannot serialize") := by
  rw [serialize_keras_object] <;> simp

theorem serialize_int (g : GState) (n : Int) :
    serialize_keras_object g (.int n) = .error (.valueError "Cannot serialize") := by
  rw [serialize_keras_object] <;> simp

theorem serialize_str (g : GState) (s : String) :
    serialize_keras_object g (.str s) = .error (.valueError "Cannot serialize") := by
  rw [serialize_keras_object] <;> simp

theorem serialize_dictval (g : GState) (d : PyDict) :
    serialize_keras_object g (.dict d) = .error (.valueError "Cannot serialize") := by
  rw [serialize_keras_object] <;> simp

theorem serialize_func (g : GState) (f : String) :
    serialize_keras_object g (.func f)
      = .ok (.str (get_registered_name g (.funcObj f))) := by
  rw [serialize_keras_object]

theorem serialize_obj (g : GState) (c : RegObj) (cfg : PyDict)
    (h : c.hasGetConfigAttr = true) :
    serialize_keras_object g (.obj c cfg)
      = .ok (.dict (.cons "class_name" (.str (get_registered_name g c))
          (.cons "config" (.dict (serializeConfigEntries g cfg)) .nil))) := by
  rw [serialize_keras_object]
  simp [h]

theorem serializeItem_none (g : GState) : serializeItem g .none = .none := by
  rw [serializeItem]
  simp [PyVal.isStr, serialize_none, PyVal.isDict]

theorem serializeItem_bool (g : GState) (b : Bool) : serializeItem g (.bool b) = .bool b := by
  rw [serializeItem]
  simp [PyVal.isStr, serialize_bool]

theorem serializeItem_int (g : GState) (n : Int) : serializeItem g (.int n) = .int n := by
  rw [serializeItem]
  simp [PyVal.isStr, serialize_int]

theorem serializeItem_strval (g : GState) (s : String) :
    serializeItem g (.str s) = .str s := by
  rw [serializeItem]
  simp [PyVal.isStr]

theorem serializeItem_dictval (g : GState) (d : PyDict) :
    serializeItem g (.dict d) = .dict d := by
  rw [serializeItem]
  simp [PyVal.isStr, serialize_dictval]

theorem serializeItem_func (g : GState) (f : String) :
    serializeItem g (.func f) = .str (get_registered_name g (.funcObj f)) := by
  rw [serializeItem]
  simp [PyVal.isStr, serialize_func, PyVal.isDict]

theorem serializeItem_obj (g : GState) (c : RegObj) (cfg : PyDict)
    (h : c.hasGetConfigAttr = true) :
    serializeItem g (.obj c cfg)
      = .dict (.cons "class_name" (.str (get_registered_name g c))
          (.cons "config" (.dict (serializeConfigEntries g cfg))
            (.cons "__passive_serialization__" (.bool true) .nil))) := by
  rw [serializeItem]
  simp [PyVal.isStr, serialize_obj g c cfg h, PyVal.isDict, markPassive, PyDict.set]

mutual

theorem rt_items (g : GState) : ∀ (cfg : PyDict), wfDict g cfg = true →
    deserializeConfigItems g (serializeConfigEntries g cfg) Option.none Option.none = .ok cfg
  | .nil, _ => by
    rw [serializeConfigEntries]
    rw [deserializeConfigItems]
  | .cons k .none r, h => by
    rw [wfDict, Bool.and_eq_true] at h
    have ih := rt_items g r h.2
    rw [serializeConfigEntries_cons, serializeItem_none, deserializeConfigItems] <;>
      simp [ih]
  | .cons k (.bool b) r, h => by
    rw [wfDict, Bool.and_eq_true] at h
    have ih := rt_items g r h.2
    rw [serializeConfigEntries_cons, serializeItem_bool, deserializeConfigItems] <;>
      simp [ih]
  | .cons k (.int n) r, h => by
    rw [wfDict, Bool.and_eq_true] at h
    have ih := rt_items g r h.2
    rw [serializeConfigEntries_cons, serializeItem_int, deserializeConfigItems] <;>
      simp [ih]
  | .cons k (.str s) r, h => by
    rw [wfDict, Bool.and_eq_true] at h
    obtain ⟨hv, hr⟩ := h
    have ih := rt_items g r hr
    rw [wfVal] at hv
    rw [serializeConfigEntries_cons, serializeItem_strval, deserializeConfigItems]
    rcases hfind : alistFind g.customObjects s with - | o
    · have hro : get_registered_object g s Option.none Option.none = none := by
        simp [get_registered_object, hfind, truthy]
      simp [hro, ih]
    · cases o with
      | funcObj f =>
        rw [hfind] at hv
        simp at hv
      | klass n hg hf =>
        have hro : get_registered_object g s Option.none Option.none
            = some (.klass n hg hf) := by
          simp [get_registered_object, hfind]
        simp [hro, ih]
  | .cons k (.func f) r, h => by
    rw [wfDict, Bool.and_eq_true] at h
    obtain ⟨hv, hr⟩ := h
    have ih := rt_items g r hr
    rw [wfVal] at hv
    obtain ⟨k0, hnk, hok, hgrn⟩ := registeredConsistently_spec g (.funcObj f) hv
    rw [serializeConfigEntries_cons, serializeItem_func, hgrn, deserializeConfigItems]
    have hro : get_registered_object g k0 Option.none Option.none
        = some (.funcObj f) := by
      simp [get_registered_object, hok]
    simp [hro, ih]
  | .cons k (.dict d) r, h => by
    rw [wfDict, Bool.and_eq_true] at h
    obtain ⟨hv, hr⟩ := h
    have ih := rt_items g r hr
    rw [wfVal] at hv
    have hm : d.member "__passive_serialization__" = false := by simpa using hv
    rw [serializeConfigEntries_cons, serializeItem_dictval, deserializeConfigItems] <;>
      simp [hm, ih]
  | .cons k (.obj c2 cfg2) r, h => by
    rw [wfDict, Bool.and_eq_true] at h
    obtain ⟨hv, hr⟩ := h
    have ih := rt_items g r hr
    have hgc2 : c2.hasGetConfigAttr = true := by
      rw [wfVal] at hv
      simp only [Bool.and_eq_true] at hv
      exact hv.1.1.1.2
    have hsub := rt_obj g c2 cfg2 (.cons "__passive_serialization__" (.bool true) .nil) hv
    rw [serializeConfigEntries_cons, serializeItem_obj g c2 cfg2 hgc2,
      deserializeConfigItems]
    have hmark : (PyDict.cons "class_name" (.str (get_registered_name g c2))
        (.cons "config" (.dict (serializeConfigEntries g cfg2))
          (.cons "__passive_serialization__" (.bool true) .nil))).member
        "__passive_serialization__" = true := by
      simp [PyDict.member, PyDict.find?]
    simp [hmark, hsub, ih]
  | .cons k (.applied f kw) r, h => by
    rw [wfDict, Bool.and_eq_true] at h
    obtain ⟨hv, hr⟩ := h
    rw [wfVal] at hv
    simp at hv
termination_by cfg => (sizeOf cfg, 0)
decreasing_by
  all_goals apply Prod.Lex.left
  all_goals simp
  all_goals omega

theorem rt_obj (g : GState) (c : RegObj) (cfg : PyDict) (rest : PyDict)
    (h : wfVal g (.obj c cfg) = true) :
    deserialize_keras_object g
      (.dict (.cons "class_name" (.str (get_registered_name g c))
        (.cons "config" (.dict (serializeConfigEntries g cfg)) rest)))
      Option.none Option.none = .ok (.obj c cfg) := by
  rw [wfVal] at h
  simp only [Bool.and_eq_true] at h
  obtain ⟨⟨⟨⟨hic, hgc⟩, hfc⟩, hrc⟩, hwf⟩ := h
  obtain ⟨k0, hnk, hok, hgrn⟩ := registeredConsistently_spec g c hrc
  have hitems := rt_items g cfg hwf
  have hro : get_registered_object g (get_registered_name g c) Option.none Option.none
      = some c := by
    rw [hgrn]
    simp [get_registered_object, hok]
  have hcc : class_and_config_for_serialized_keras_object g
      (.dict (.cons "class_name" (.str (get_registered_name g c))
        (.cons "config" (.dict (serializeConfigEntries g cfg)) rest)))
      Option.none Option.none = .ok (c, cfg) := by
    rw [class_and_config_for_serialized_keras_object]
    simp [PyDict.member, PyDict.find?, hro, hitems]
  rw [deserialize_keras_object, hcc]
  simp [hfc, fromConfig]
termination_by (sizeOf cfg, 1)
decreasing_by
  apply Prod.Lex.right
  omega

end

end GenericUtils
